import Mathlib

/-!
Shallow embedding of cb.py (CopyBuffer): a command-line utility that copies
file contents, standard input, or images to the system clipboard.

External collaborators (the file system, standard input, the clipboard
backend, the tokenizer, the image pathway) are modelled as an explicit
environment `Env`; `main` returns the observable effects of one invocation
as a `MainResult` (printed lines in order, final clipboard text, how many
times stdin was read, how many clipboard pastes and text copies happened).

Everything lives in namespace `CopyBuffer` (`main` is reserved at top level).
String primitives the source uses (strip, lower, endswith) are embedded as
character-list functions so that concrete runs evaluate by kernel reduction.
-/

namespace CopyBuffer

/-- Python str.strip(): drop leading and trailing whitespace characters. -/
def pyStrip (s : String) : String :=
  ⟨((s.data.dropWhile Char.isWhitespace).reverse.dropWhile Char.isWhitespace).reverse⟩

/-- Python str.lower(). -/
def strLower (s : String) : String := ⟨s.data.map Char.toLower⟩

/-- Whether the first list leads the second (character-list comparison). -/
def charsLeadWith : List Char → List Char → Bool
  | [], _ => true
  | _ :: _, [] => false
  | a :: as, b :: bs => a == b && charsLeadWith as bs

/-- Python str.endswith(suffix). -/
def strEndsWith (s suffix : String) : Bool :=
  charsLeadWith suffix.data.reverse s.data.reverse

/-- Parsed command-line arguments (argparse configuration, cb.py lines 69-77).
`export` is a Lean keyword, so the source flag `args.export` is `exportFlag`. -/
structure Args where
  version : Bool
  header : Bool
  attachment : Bool
  token : Bool
  debug : Bool
  exportFlag : Bool
  file_paths : List String
deriving DecidableEq

/-- The external world of one invocation.  Fields that stand for code this
repository references but that is absent from src (count_tokens,
copy_image_to_clipboard) are modelled from the spec, as noted per field. -/
structure Env where
  xclip_installed : Bool
  xsel_installed : Bool
  pyperclip_installed : Bool
  /-- File system: `some c` means the path opens as a text file with content
  `c`; `none` means opening raises FileNotFoundError. -/
  fs : String → Option String
  /-- Text available on standard input. -/
  stdin : String
  /-- Clipboard text before the invocation. -/
  clipboard : String
  /-- `none`: pyperclip.copy succeeds; `some msg`: it raises an exception
  whose str() is `msg`. -/
  clipboardError : Option String
  /-- Modelled from the spec: `count_tokens` is called by `main` but absent
  from src; the spec describes it as an abstract tokenizer collaborator
  mapping a text string (and an encoding name) to a token count. -/
  count_tokens : String → String → Nat
  /-- Modelled from the spec: `copy_image_to_clipboard` is called by `main`
  but absent from src; this is whether the image copy for a path succeeds. -/
  image_ok : String → Bool
  /-- Modelled from the spec: lines a successful image copy prints. -/
  image_ok_out : String → List String
  /-- Modelled from the spec: lines a failed image copy prints (failures are
  reported per item). -/
  image_fail_out : String → List String
  /-- Modelled from the spec: the clipboard payload a successful image copy
  leaves on the clipboard (PNG image data for the path). -/
  imageData : String → String

/-- cb.py line 15: whether the xclip bridge executable is on the path. -/
def is_xclip_installed (env : Env) : Bool := env.xclip_installed

/-- cb.py line 18: whether the xsel bridge executable is on the path. -/
def is_xsel_installed (env : Env) : Bool := env.xsel_installed

/-- cb.py line 21: whether the pyperclip library is importable. -/
def is_pyperclip_installed (env : Env) : Bool := env.pyperclip_installed

/-- cb.py lines 28-37: list of missing dependency names. -/
def check_dependencies (env : Env) : List String :=
  (if !is_xclip_installed env && !is_xsel_installed env then ["xclip or xsel"] else []) ++
    (if !is_pyperclip_installed env then ["pyperclip"] else [])

/-- cb.py lines 39-43: the installation-guidance lines. -/
def install_dependencies (env : Env) : List String :=
  "Please install the following dependencies:" ::
    (check_dependencies env).map (fun dep => "- " ++ dep)

/-- cb.py line 13. -/
def VERSION : String := "v1.0-4-ged68b6e"

/-- cb.py line 116: `file_path.lower().endswith((".png", ".jpg", ".jpeg", ".bmp", ".gif"))`. -/
def isImagePath (file_path : String) : Bool :=
  strEndsWith (strLower file_path) ".png" || strEndsWith (strLower file_path) ".jpg" ||
    strEndsWith (strLower file_path) ".jpeg" || strEndsWith (strLower file_path) ".bmp" ||
    strEndsWith (strLower file_path) ".gif"

/-- Python truthiness of the optional `file_paths` argument of
`copy_file_contents_to_clipboard`: `None` and `[]` are falsy. -/
def listTruthy : Option (List String) → Bool
  | some (_ :: _) => true
  | _ => false

/-- `file_paths[i]` when `file_paths` is truthy (call sites keep the two
lists the same length, so the default is never reached there). -/
def pathAt (file_paths : Option (List String)) (i : Nat) : String :=
  (file_paths.getD []).getD i ""

/-- cb.py lines 49-54: per-item formatting inside the combine loop — the
header prefix first, then the Discord attachment wrapper. -/
def formatItem (include_header discord_attachment : Bool)
    (file_paths : Option (List String)) (i : Nat) (file_contents : String) : String :=
  let fc :=
    if include_header && listTruthy file_paths then
      "=== File: " ++ pathAt file_paths i ++ " ===\n" ++ file_contents
    else file_contents
  if discord_attachment && listTruthy file_paths then
    "[Attached file: " ++ pathAt file_paths i ++ "\nContent:\n```\n" ++ fc ++ "\n```\n]"
  else fc

/-- cb.py lines 47-58: the `for i, file_contents in enumerate(...)` loop.
Returns the accumulated `combined_contents` and the debug lines printed
inside the loop, in order. -/
def combineLoop (include_header discord_attachment debug : Bool)
    (file_paths : Option (List String)) :
    List String → Nat → String → String × List String
  | [], _, acc => (acc, [])
  | file_contents :: rest, i, acc =>
    let acc2 := acc ++ formatItem include_header discord_attachment file_paths i file_contents ++ "\n"
    let r := combineLoop include_header discord_attachment debug file_paths rest (i + 1) acc2
    (r.1, (if debug then ["Debug: Combined contents so far:\n" ++ acc2] else []) ++ r.2)

/-- Observable result of one `copy_file_contents_to_clipboard` call:
the Python return value (`none` models returning None after the except
branch), the lines it printed, the clipboard text afterwards, and how many
pyperclip.copy calls were attempted. -/
structure CopyResult where
  ret : Option String
  out : List String
  clip : String
  copies : Nat
deriving DecidableEq

/-- cb.py lines 45-66: build the combined contents, attempt the clipboard
write, return the combined text (or None and an error line if pyperclip.copy
raises, leaving the clipboard unchanged). -/
def copy_file_contents_to_clipboard (env : Env) (clip : String)
    (file_contents_list : List String) (include_header discord_attachment : Bool)
    (file_paths : Option (List String)) (debug : Bool) : CopyResult :=
  let r := combineLoop include_header discord_attachment debug file_paths file_contents_list 0 ""
  match env.clipboardError with
  | none =>
    { ret := some r.1
      out := r.2 ++ (if debug then ["Debug: Final combined contents copied to clipboard:\n" ++ r.1] else [])
      clip := r.1
      copies := 1 }
  | some msg =>
    { ret := none
      out := r.2 ++ ["Error: An unexpected error occurred. " ++ msg]
      clip := clip
      copies := 1 }

/-- State after the batch file loop of `main`: printed lines, collected
`file_contents_list` and `valid_file_paths`, the clipboard text so far
(image copies write it), and whether the loop returned early because an
image copy failed. -/
structure BatchResult where
  out : List String
  contents : List String
  valids : List String
  clip : String
  aborted : Bool
deriving DecidableEq

/-- cb.py lines 111-130: the `for file_path in args.file_paths` loop.
Image paths go to the image pathway (a failure returns from `main` at
once); other paths are opened as text, a FileNotFoundError prints an error
line and continues with the remaining paths. -/
def processPaths (env : Env) (debug : Bool) : List String → String → BatchResult
  | [], clip => ⟨[], [], [], clip, false⟩
  | file_path :: rest, clip =>
    let dbg := if debug then ["Processing file: " ++ file_path] else []
    if isImagePath file_path then
      if env.image_ok file_path then
        let r := processPaths env debug rest (env.imageData file_path)
        ⟨dbg ++ env.image_ok_out file_path ++ r.out, r.contents, r.valids, r.clip, r.aborted⟩
      else
        ⟨dbg ++ env.image_fail_out file_path, [], [], clip, true⟩
    else
      match env.fs file_path with
      | some file_content =>
        let r := processPaths env debug rest clip
        ⟨dbg ++ (if debug then ["Debug: Appended contents of " ++ file_path] else []) ++ r.out,
          pyStrip file_content :: r.contents, file_path :: r.valids, r.clip, r.aborted⟩
      | none =>
        let r := processPaths env debug rest clip
        ⟨dbg ++ ("Error: File \x27" ++ file_path ++ "\x27 not found.") :: r.out,
          r.contents, r.valids, r.clip, r.aborted⟩

/-- Observable result of one whole invocation of `main`. -/
structure MainResult where
  out : List String
  clip : String
  stdinReads : Nat
  pastes : Nat
  copies : Nat
deriving DecidableEq

/-- cb.py line 92: the fixed tokenizer encoding name. -/
def encodingName : String := "cl100k_base"

/-- cb.py lines 100-109: the stdin branch of `main`, taken when `-` is among
the positional paths. Reads stdin once, strips it, optionally prints the
token count, copies, reports. -/
def mainStdin (env : Env) (args : Args) : MainResult :=
  let file_content := pyStrip env.stdin
  let tokOut :=
    if args.token then
      ["STDIN contains " ++ toString (env.count_tokens file_content encodingName) ++ " tokens."]
    else []
  let cr := copy_file_contents_to_clipboard env env.clipboard [file_content]
      args.header args.attachment none args.debug
  match cr.ret with
  | some s =>
    if s.isEmpty then ⟨tokOut ++ cr.out, cr.clip, 1, 0, cr.copies⟩
    else
      ⟨tokOut ++ cr.out ++ ["STDIN copied to the clipboard successfully!"]
          ++ (if args.exportFlag then ["Exported contents:\n" ++ s] else []),
        cr.clip, 1, 0, cr.copies⟩
  | none => ⟨tokOut ++ cr.out, cr.clip, 1, 0, cr.copies⟩

/-- cb.py lines 110-142: the batch branch of `main`: the file loop, the
optional token report, the combine-and-copy call, the success report. -/
def mainBatch (env : Env) (args : Args) : MainResult :=
  let br := processPaths env args.debug args.file_paths env.clipboard
  if br.aborted then ⟨br.out, br.clip, 0, 0, 0⟩
  else
    let tokOut :=
      if args.token then
        (br.contents.zip br.valids).map (fun pc =>
          pc.2 ++ " contains " ++ toString (env.count_tokens pc.1 encodingName) ++ " tokens.")
      else []
    if !br.contents.isEmpty then
      let cr := copy_file_contents_to_clipboard env br.clip br.contents
          args.header args.attachment (some br.valids) args.debug
      match cr.ret with
      | some s =>
        if s.isEmpty then ⟨br.out ++ tokOut ++ cr.out, cr.clip, 0, 0, cr.copies⟩
        else
          ⟨br.out ++ tokOut ++ cr.out ++ ["All files copied to the clipboard successfully!"]
              ++ (if args.exportFlag then ["Exported contents:\n" ++ s] else []),
            cr.clip, 0, 0, cr.copies⟩
      | none => ⟨br.out ++ tokOut ++ cr.out, cr.clip, 0, 0, cr.copies⟩
    else ⟨br.out ++ tokOut, br.clip, 0, 0, 0⟩

/-- cb.py lines 68-142: the program entry point over an explicit
environment. Follows the branch order of the source: dependency check, version,
the no-paths branch, the stdin branch (when `-` is among the paths), the
batch branch. -/
def main (env : Env) (args : Args) : MainResult :=
  let missing_dependencies := check_dependencies env
  if !missing_dependencies.isEmpty then
    ⟨"Missing dependencies:" :: missing_dependencies.map (fun dep => "- " ++ dep)
        ++ install_dependencies env,
      env.clipboard, 0, 0, 0⟩
  else if args.version then
    ⟨["This is the CopyBuffer application, version " ++ VERSION], env.clipboard, 0, 0, 0⟩
  else if args.file_paths.isEmpty && !(args.file_paths.contains "-") then
    if args.exportFlag then
      ⟨["Exported contents:\n" ++ env.clipboard], env.clipboard, 0, 1, 0⟩
    else ⟨[], env.clipboard, 0, 0, 0⟩
  else if args.file_paths.contains "-" then mainStdin env args
  else mainBatch env args

/-- Concatenation of a list of strings, in order. -/
def concatAll : List String → String
  | [] => ""
  | s :: rest => s ++ concatAll rest

/-- A concrete file system for witnesses: two readable text files. -/
def fsW : String → Option String := fun p =>
  if p = "a.txt" then some " alpha " else if p = "b.txt" then some "beta" else none

/-- A concrete environment for witnesses: dependencies present, clipboard
write succeeds. -/
def envW : Env :=
  { xclip_installed := true
    xsel_installed := false
    pyperclip_installed := true
    fs := fsW
    stdin := "  hi  "
    clipboard := "old"
    clipboardError := none
    count_tokens := fun s _ => s.length
    image_ok := fun _ => true
    image_ok_out := fun _ => []
    image_fail_out := fun _ => ["image copy failed"]
    imageData := fun p => "IMG " ++ p }

/-- Like `envW` but pyperclip.copy raises with message "boom". -/
def envF : Env := { envW with clipboardError := some "boom" }

/-- All-flags-off arguments with no paths; witnesses override fields. -/
def argsNone : Args :=
  { version := false
    header := false
    attachment := false
    token := false
    debug := false
    exportFlag := false
    file_paths := [] }

/-! ### Helper lemmas -/

theorem str_append_newline_ne (s : String) : (s ++ "\n") ≠ "" := by
  intro hc
  have h2 := congrArg String.length hc
  simp [String.length_append] at h2
  exact absurd h2.2 (by decide)

theorem str_append_newline_isEmpty (s : String) : (s ++ "\n").isEmpty = false := by
  rw [Bool.eq_false_iff]
  intro hc
  rw [String.isEmpty_iff] at hc
  exact str_append_newline_ne s hc

theorem combineLoop_fst_debug (h a d d2 : Bool) (fp : Option (List String)) :
    ∀ (cs : List String) (i : Nat) (acc : String),
      (combineLoop h a d fp cs i acc).1 = (combineLoop h a d2 fp cs i acc).1 := by
  intro cs
  induction cs with
  | nil => intro i acc; rfl
  | cons c rest ih =>
    intro i acc
    simp only [combineLoop]
    exact ih _ _

theorem combineLoop_noflags (d : Bool) (fp : Option (List String)) :
    ∀ (cs : List String) (i : Nat) (acc : String),
      (combineLoop false false d fp cs i acc).1
        = acc ++ concatAll (cs.map (fun c => c ++ "\n")) := by
  intro cs
  induction cs with
  | nil => intro i acc; simp [combineLoop, concatAll]
  | cons c rest ih =>
    intro i acc
    simp only [combineLoop, formatItem, Bool.false_and, if_false, List.map_cons, concatAll]
    rw [ih]
    simp [String.append_assoc]

theorem combineLoop_fst_ne_empty (h a d : Bool) (fp : Option (List String)) :
    ∀ (cs : List String) (i : Nat) (acc : String), cs ≠ [] →
      (combineLoop h a d fp cs i acc).1.isEmpty = false := by
  intro cs
  induction cs with
  | nil => intro i acc hne; exact absurd rfl hne
  | cons c rest ih =>
    intro i acc _
    cases rest with
    | nil =>
      simp only [combineLoop]
      exact str_append_newline_isEmpty _
    | cons c2 rest2 =>
      simp only [combineLoop]
      exact ih _ _ (by simp)

theorem drop_cons_parts :
    ∀ (i : Nat) (ps ps2 : List String) (p : String), ps.drop i = p :: ps2 →
      ps.getD i "" = p ∧ ps.drop (i + 1) = ps2 := by
  intro i
  induction i with
  | zero =>
    intro ps ps2 p hp
    simp only [List.drop_zero] at hp
    subst hp
    simp
  | succ n ih =>
    intro ps ps2 p hp
    cases ps with
    | nil => simp at hp
    | cons q qs =>
      simp only [List.drop_succ_cons] at hp
      have := ih qs ps2 p hp
      simp only [List.getD_cons_succ, List.drop_succ_cons]
      exact this

theorem listTruthy_of_ne_nil (ps : List String) (hps : ps ≠ []) :
    listTruthy (some ps) = true := by
  cases ps with
  | nil => exact absurd rfl hps
  | cons x xs => rfl

theorem combineLoop_both (d : Bool) (ps : List String) (hps : ps ≠ []) :
    ∀ (cs ssuf : List String) (i : Nat) (acc : String),
      ps.drop i = ssuf → cs.length ≤ ssuf.length →
      (combineLoop true true d (some ps) cs i acc).1 =
        acc ++ concatAll ((ssuf.zip cs).map (fun pc =>
          "[Attached file: " ++ pc.1 ++ "\nContent:\n```\n=== File: " ++ pc.1 ++ " ===\n"
            ++ pc.2 ++ "\n```\n]" ++ "\n")) := by
  intro cs
  induction cs with
  | nil => intro ssuf i acc hdrop hlen; simp [combineLoop, concatAll]
  | cons c rest ih =>
    intro ssuf i acc hdrop hlen
    cases ssuf with
    | nil => simp at hlen
    | cons p ps2 =>
      obtain ⟨hgd, hdrop2⟩ := drop_cons_parts i ps ps2 p hdrop
      have htr : listTruthy (some ps) = true := listTruthy_of_ne_nil ps hps
      simp only [combineLoop, formatItem, htr, Bool.and_true, Bool.true_and, if_true,
        pathAt, Option.getD_some, hgd, List.zip_cons_cons, List.map_cons, concatAll,
        if_pos]
      rw [ih ps2 (i + 1) _ hdrop2 (by simpa using hlen)]
      have hBH : ∀ X : String,
          ("\nContent:\n```\n" : String) ++ ("=== File: " ++ X)
            = "\nContent:\n```\n=== File: " ++ X := by
        intro X
        rw [← String.append_assoc]
        rfl
      simp [String.append_assoc, hBH, List.zip]

theorem copy_ok (env : Env) (hce : env.clipboardError = none)
    (clip : String) (cs : List String)
    (h a : Bool) (fp : Option (List String)) (d : Bool) :
    copy_file_contents_to_clipboard env clip cs h a fp d =
      { ret := some (combineLoop h a d fp cs 0 "").1
        out := (combineLoop h a d fp cs 0 "").2 ++
          (if d then ["Debug: Final combined contents copied to clipboard:\n"
            ++ (combineLoop h a d fp cs 0 "").1] else [])
        clip := (combineLoop h a d fp cs 0 "").1
        copies := 1 } := by
  simp [copy_file_contents_to_clipboard, hce]

theorem copy_err (env : Env) (msg : String) (hce : env.clipboardError = some msg)
    (clip : String) (cs : List String)
    (h a : Bool) (fp : Option (List String)) (d : Bool) :
    copy_file_contents_to_clipboard env clip cs h a fp d =
      { ret := none
        out := (combineLoop h a d fp cs 0 "").2
          ++ ["Error: An unexpected error occurred. " ++ msg]
        clip := clip
        copies := 1 } := by
  simp [copy_file_contents_to_clipboard, hce]

theorem processPaths_text_ok (env : Env) (d : Bool) :
    ∀ (paths : List String) (clip : String),
      (∀ p ∈ paths, isImagePath p = false) →
      (∀ p ∈ paths, (env.fs p).isSome = true) →
      (processPaths env d paths clip).contents
          = paths.map (fun p => pyStrip ((env.fs p).getD ""))
        ∧ (processPaths env d paths clip).valids = paths
        ∧ (processPaths env d paths clip).clip = clip
        ∧ (processPaths env d paths clip).aborted = false := by
  intro paths
  induction paths with
  | nil => intro clip _ _; exact ⟨rfl, rfl, rfl, rfl⟩
  | cons p rest ih =>
    intro clip himg hfs
    have hp : isImagePath p = false := himg p (List.mem_cons_self p rest)
    obtain ⟨c, hc⟩ := Option.isSome_iff_exists.mp (hfs p (List.mem_cons_self p rest))
    have ihh := ih clip (fun q hq => himg q (List.mem_cons_of_mem p hq))
      (fun q hq => hfs q (List.mem_cons_of_mem p hq))
    simp [processPaths, hp, hc, ihh.1, ihh.2.1, ihh.2.2.1, ihh.2.2.2]

theorem processPaths_missing (env : Env) (d : Bool) :
    ∀ (paths : List String) (clip : String),
      (∀ p ∈ paths, isImagePath p = false) →
      (∀ p ∈ paths, env.fs p = none) →
      (processPaths env d paths clip).contents = []
        ∧ (processPaths env d paths clip).valids = []
        ∧ (processPaths env d paths clip).clip = clip
        ∧ (processPaths env d paths clip).aborted = false
        ∧ (d = false → (processPaths env d paths clip).out
            = paths.map (fun p => "Error: File \x27" ++ p ++ "\x27 not found.")) := by
  intro paths
  induction paths with
  | nil => intro clip _ _; exact ⟨rfl, rfl, rfl, rfl, fun _ => rfl⟩
  | cons p rest ih =>
    intro clip himg hfs
    have hp : isImagePath p = false := himg p (List.mem_cons_self p rest)
    have hc : env.fs p = none := hfs p (List.mem_cons_self p rest)
    have ihh := ih clip (fun q hq => himg q (List.mem_cons_of_mem p hq))
      (fun q hq => hfs q (List.mem_cons_of_mem p hq))
    refine ⟨?_, ?_, ?_, ?_, ?_⟩
    · simp [processPaths, hp, hc, ihh.1]
    · simp [processPaths, hp, hc, ihh.2.1]
    · simp [processPaths, hp, hc, ihh.2.2.1]
    · simp [processPaths, hp, hc, ihh.2.2.2.1]
    · intro hd
      subst hd
      simp [processPaths, hp, hc, ihh.2.2.2.2 rfl]

theorem processPaths_skip (env : Env) (d : Bool) (bad : String)
    (hbi : isImagePath bad = false) (hbf : env.fs bad = none) :
    ∀ (l1 l2 : List String) (clip : String),
      (processPaths env d l1 clip).aborted = false →
      (("Error: File \x27" ++ bad ++ "\x27 not found.")
          ∈ (processPaths env d (l1 ++ bad :: l2) clip).out)
        ∧ (processPaths env d (l1 ++ bad :: l2) clip).contents
            = (processPaths env d (l1 ++ l2) clip).contents
        ∧ (processPaths env d (l1 ++ bad :: l2) clip).valids
            = (processPaths env d (l1 ++ l2) clip).valids
        ∧ (processPaths env d (l1 ++ bad :: l2) clip).clip
            = (processPaths env d (l1 ++ l2) clip).clip
        ∧ (processPaths env d (l1 ++ bad :: l2) clip).aborted
            = (processPaths env d (l1 ++ l2) clip).aborted := by
  intro l1
  induction l1 with
  | nil =>
    intro l2 clip _
    simp [processPaths, hbi, hbf]
  | cons p rest ih =>
    intro l2 clip hab
    cases hip : isImagePath p with
    | true =>
      cases hok : env.image_ok p with
      | true =>
        have hab2 : (processPaths env d rest (env.imageData p)).aborted = false := by
          simpa [processPaths, hip, hok] using hab
        have ihh := ih l2 (env.imageData p) hab2
        refine ⟨?_, ?_, ?_, ?_, ?_⟩
        · simp [processPaths, hip, hok, List.mem_append, ihh.1]
        · simp [processPaths, hip, hok, ihh.2.1]
        · simp [processPaths, hip, hok, ihh.2.2.1]
        · simp [processPaths, hip, hok, ihh.2.2.2.1]
        · simp [processPaths, hip, hok, ihh.2.2.2.2]
      | false =>
        exfalso
        simp [processPaths, hip, hok] at hab
    | false =>
      cases hfsp : env.fs p with
      | some c =>
        have hab2 : (processPaths env d rest clip).aborted = false := by
          simpa [processPaths, hip, hfsp] using hab
        have ihh := ih l2 clip hab2
        refine ⟨?_, ?_, ?_, ?_, ?_⟩
        · simp [processPaths, hip, hfsp, List.mem_append, ihh.1]
        · simp [processPaths, hip, hfsp, ihh.2.1]
        · simp [processPaths, hip, hfsp, ihh.2.2.1]
        · simp [processPaths, hip, hfsp, ihh.2.2.2.1]
        · simp [processPaths, hip, hfsp, ihh.2.2.2.2]
      | none =>
        have hab2 : (processPaths env d rest clip).aborted = false := by
          simpa [processPaths, hip, hfsp] using hab
        have ihh := ih l2 clip hab2
        refine ⟨?_, ?_, ?_, ?_, ?_⟩
        · simp [processPaths, hip, hfsp, List.mem_append, List.mem_cons, ihh.1]
        · simp [processPaths, hip, hfsp, ihh.2.1]
        · simp [processPaths, hip, hfsp, ihh.2.2.1]
        · simp [processPaths, hip, hfsp, ihh.2.2.2.1]
        · simp [processPaths, hip, hfsp, ihh.2.2.2.2]

theorem processPaths_debug_inv (env : Env) (d d2 : Bool) :
    ∀ (paths : List String) (clip : String),
      (processPaths env d paths clip).contents = (processPaths env d2 paths clip).contents
        ∧ (processPaths env d paths clip).valids = (processPaths env d2 paths clip).valids
        ∧ (processPaths env d paths clip).clip = (processPaths env d2 paths clip).clip
        ∧ (processPaths env d paths clip).aborted = (processPaths env d2 paths clip).aborted := by
  intro paths
  induction paths with
  | nil => intro clip; exact ⟨rfl, rfl, rfl, rfl⟩
  | cons p rest ih =>
    intro clip
    cases hip : isImagePath p with
    | true =>
      cases hok : env.image_ok p with
      | true =>
        have ihh := ih (env.imageData p)
        refine ⟨?_, ?_, ?_, ?_⟩ <;> simp [processPaths, hip, hok, ihh.1, ihh.2.1,
          ihh.2.2.1, ihh.2.2.2]
      | false =>
        refine ⟨?_, ?_, ?_, ?_⟩ <;> simp [processPaths, hip, hok]
    | false =>
      cases hfsp : env.fs p with
      | some c =>
        have ihh := ih clip
        refine ⟨?_, ?_, ?_, ?_⟩ <;> simp [processPaths, hip, hfsp, ihh.1, ihh.2.1,
          ihh.2.2.1, ihh.2.2.2]
      | none =>
        have ihh := ih clip
        refine ⟨?_, ?_, ?_, ?_⟩ <;> simp [processPaths, hip, hfsp, ihh.1, ihh.2.1,
          ihh.2.2.1, ihh.2.2.2]

/-! ### Branch-selection lemmas for `main` -/

theorem main_eq_stdin (env : Env) (args : Args)
    (hm : check_dependencies env = [])
    (hv : args.version = false)
    (hdash : "-" ∈ args.file_paths) :
    main env args = mainStdin env args := by
  have hcont : args.file_paths.contains "-" = true := by simpa using hdash
  have hne : args.file_paths ≠ [] := by
    intro h
    rw [h] at hdash
    exact absurd hdash (List.not_mem_nil "-")
  have hemp : args.file_paths.isEmpty = false := by simpa using hne
  unfold main
  rw [hm]
  simp [hv, hcont, hemp]
  intro h
  exact absurd hdash h

theorem main_eq_batch (env : Env) (args : Args)
    (hm : check_dependencies env = [])
    (hv : args.version = false)
    (hne : args.file_paths ≠ [])
    (hdash : "-" ∉ args.file_paths) :
    main env args = mainBatch env args := by
  have hcont : args.file_paths.contains "-" = false := by simpa using hdash
  have hemp : args.file_paths.isEmpty = false := by simpa using hne
  unfold main
  rw [hm]
  simp [hv, hcont, hemp]
  intro h
  exact absurd h hdash

/-! ### Claims -/

/-- C6: with zero positional paths, `--export` unset, dependencies present
and `--version` unset (all other flags arbitrary), the invocation reads
nothing from standard input, performs no clipboard write or read, prints
nothing, and returns normally with the clipboard untouched. -/
theorem C6_no_paths_noop (env : Env) (args : Args)
    (hm : check_dependencies env = [])
    (hv : args.version = false)
    (hp : args.file_paths = [])
    (he : args.exportFlag = false) :
    main env args = ⟨[], env.clipboard, 0, 0, 0⟩ := by
  unfold main
  rw [hm, hp]
  simp [hv, he]

theorem C6_no_paths_noop_witness :
    main envW argsNone = ⟨[], "old", 0, 0, 0⟩ :=
  (C6_no_paths_noop envW argsNone rfl rfl rfl rfl).trans rfl

/-- C1: for a non-empty list of readable non-image paths, no formatting
flags and a succeeding clipboard write, the clipboard ends up holding the
concatenation of the whitespace-stripped content of each file followed by one
newline, in command-line order. -/
theorem C1_no_flags_payload (env : Env) (args : Args)
    (hm : check_dependencies env = [])
    (hv : args.version = false)
    (hne : args.file_paths ≠ [])
    (hdash : "-" ∉ args.file_paths)
    (himg : ∀ p ∈ args.file_paths, isImagePath p = false)
    (hread : ∀ p ∈ args.file_paths, (env.fs p).isSome = true)
    (hh : args.header = false) (ha : args.attachment = false)
    (hce : env.clipboardError = none) :
    (main env args).clip
      = concatAll (args.file_paths.map (fun p => pyStrip ((env.fs p).getD "") ++ "\n")) := by
  obtain ⟨hc, hvl, hcl, hab⟩ :=
    processPaths_text_ok env args.debug args.file_paths env.clipboard himg hread
  have hmapne : args.file_paths.map (fun p => pyStrip ((env.fs p).getD "")) ≠ [] := by
    simp [hne]
  have hmapemp :
      (args.file_paths.map (fun p => pyStrip ((env.fs p).getD ""))).isEmpty = false := by
    simp [hne]
  have hcombne := combineLoop_fst_ne_empty false false args.debug
    (some (processPaths env args.debug args.file_paths env.clipboard).valids)
    (args.file_paths.map (fun p => pyStrip ((env.fs p).getD ""))) 0 "" hmapne
  have hcomb := combineLoop_noflags args.debug
    (some (processPaths env args.debug args.file_paths env.clipboard).valids)
    (args.file_paths.map (fun p => pyStrip ((env.fs p).getD ""))) 0 ""
  rw [main_eq_batch env args hm hv hne hdash]
  simp only [mainBatch, hab, Bool.false_eq_true, if_false, hc, hh, ha, hmapemp,
    Bool.not_false, if_true, copy_ok env hce, hcombne]
  rw [hcomb]
  simp only [List.map_map]
  rfl

theorem C1_no_flags_payload_witness :
    (main envW { argsNone with file_paths := ["a.txt", "b.txt"] }).clip
      = "alpha\nbeta\n" := by
  have h := C1_no_flags_payload envW { argsNone with file_paths := ["a.txt", "b.txt"] }
    rfl rfl (by decide) (by decide) (by decide) (by decide) rfl rfl rfl
  rw [h]
  decide

/-- C5: with both `--header` and `-a` set and known paths, the payload of each item wraps the header together with the content:
`[Attached file: <path>\nContent:\n(fence)\n=== File: <path> ===\n<content>\n(fence)\n]`,
followed by the newline the loop appends, concatenated in order. -/
theorem C5_header_then_attachment (env : Env) (clip : String)
    (cs ps : List String) (d : Bool)
    (hce : env.clipboardError = none)
    (hps : ps ≠ [])
    (hlen : cs.length ≤ ps.length) :
    (copy_file_contents_to_clipboard env clip cs true true (some ps) d).ret
      = some (concatAll ((ps.zip cs).map (fun pc =>
          "[Attached file: " ++ pc.1 ++ "\nContent:\n```\n=== File: " ++ pc.1 ++ " ===\n"
            ++ pc.2 ++ "\n```\n]" ++ "\n"))) := by
  rw [copy_ok env hce]
  rw [combineLoop_both d ps hps cs ps 0 "" (by simp) hlen]
  rfl

theorem C5_header_then_attachment_witness :
    (copy_file_contents_to_clipboard envW "old" ["c1"] true true (some ["p1"]) false).ret
      = some "[Attached file: p1\nContent:\n```\n=== File: p1 ===\nc1\n```\n]\n" := by
  have h := C5_header_then_attachment envW "old" ["c1"] ["p1"] false rfl (by decide) (by decide)
  rw [h]
  decide

theorem copy_debug_inv (env : Env) (clip : String) (cs : List String)
    (h a : Bool) (fp : Option (List String)) (d d2 : Bool) :
    (copy_file_contents_to_clipboard env clip cs h a fp d).ret
        = (copy_file_contents_to_clipboard env clip cs h a fp d2).ret
      ∧ (copy_file_contents_to_clipboard env clip cs h a fp d).clip
        = (copy_file_contents_to_clipboard env clip cs h a fp d2).clip := by
  unfold copy_file_contents_to_clipboard
  cases hce : env.clipboardError with
  | none => simp [combineLoop_fst_debug h a d d2 fp cs 0 ""]
  | some msg => simp

theorem mainStdin_clip_debug (env : Env) (args : Args) :
    (mainStdin env { args with debug := true }).clip
      = (mainStdin env { args with debug := false }).clip := by
  obtain ⟨hret, hclip⟩ := copy_debug_inv env env.clipboard [pyStrip env.stdin]
    args.header args.attachment none true false
  simp only [mainStdin]
  rw [hret]
  cases hr : (copy_file_contents_to_clipboard env env.clipboard [pyStrip env.stdin]
      args.header args.attachment none false).ret with
  | none => simp [hclip]
  | some s =>
    simp only []
    split <;> simp [hclip]

theorem mainBatch_clip_debug (env : Env) (args : Args) :
    (mainBatch env { args with debug := true }).clip
      = (mainBatch env { args with debug := false }).clip := by
  obtain ⟨hco, hva, hcl, hab⟩ :=
    processPaths_debug_inv env true false args.file_paths env.clipboard
  obtain ⟨hret, hclip⟩ := copy_debug_inv env
    (processPaths env false args.file_paths env.clipboard).clip
    (processPaths env false args.file_paths env.clipboard).contents
    args.header args.attachment
    (some (processPaths env false args.file_paths env.clipboard).valids) true false
  simp only [mainBatch]
  rw [hab, hco, hva, hcl]
  cases habF : (processPaths env false args.file_paths env.clipboard).aborted with
  | true => simp [hcl]
  | false =>
    simp only [Bool.false_eq_true, if_false]
    cases hbe : (processPaths env false args.file_paths env.clipboard).contents.isEmpty with
    | true => simp [hbe]
    | false =>
      simp only [hbe, Bool.not_false, if_true]
      rw [hret]
      cases hr : (copy_file_contents_to_clipboard env
          (processPaths env false args.file_paths env.clipboard).clip
          (processPaths env false args.file_paths env.clipboard).contents
          args.header args.attachment
          (some (processPaths env false args.file_paths env.clipboard).valids) false).ret with
      | none => simp [hclip]
      | some s =>
        simp only []
        split <;> simp [hclip]

/-- C10: the `--debug` flag only adds trace output: the clipboard text of a
whole invocation, and the value returned by the combine-and-copy operation,
are identical with and without it. -/
theorem C10_debug_only_adds_output (env : Env) (args : Args) (clip : String)
    (cs : List String) (hdr att : Bool) (fp : Option (List String)) :
    (main env { args with debug := true }).clip
        = (main env { args with debug := false }).clip
      ∧ (copy_file_contents_to_clipboard env clip cs hdr att fp true).ret
        = (copy_file_contents_to_clipboard env clip cs hdr att fp false).ret := by
  constructor
  · cases hdep : check_dependencies env with
    | cons x xs =>
      unfold main
      rw [hdep]
      simp
    | nil =>
      by_cases hvb : args.version = true
      · unfold main
        rw [hdep]
        simp [hvb]
      · have hv : args.version = false := by
          revert hvb
          cases args.version <;> simp
        by_cases hdash : "-" ∈ args.file_paths
        · rw [main_eq_stdin env { args with debug := true } hdep hv hdash,
            main_eq_stdin env { args with debug := false } hdep hv hdash]
          exact mainStdin_clip_debug env args
        · by_cases hpe : args.file_paths = []
          · unfold main
            rw [hdep]
            simp [hv, hpe]
          · rw [main_eq_batch env { args with debug := true } hdep hv hpe hdash,
              main_eq_batch env { args with debug := false } hdep hv hpe hdash]
            exact mainBatch_clip_debug env args
  · exact (copy_debug_inv env clip cs hdr att fp true false).1

/-- C2 is false on the code: with `-` among the paths, the other positional
paths are not resolved at all — here `a.txt` exists with readable content,
yet the whole run (output, clipboard, every observable) is identical to the
run where the file system has no files, and the clipboard holds only the
stripped stdin text. -/
theorem C2_counterexample :
    main envW { argsNone with file_paths := ["-", "a.txt"] }
        = main { envW with fs := fun _ => none } { argsNone with file_paths := ["-", "a.txt"] }
      ∧ (main envW { argsNone with file_paths := ["-", "a.txt"] }).clip = "hi\n"
      ∧ envW.fs "a.txt" = some " alpha " := by
  refine ⟨by decide, by decide, rfl⟩

/-- C2 (amended): with `-` among the positional paths, standard input is
read exactly once, stripped of surrounding whitespace and treated as the
single text item; every other positional path is ignored entirely — the
run does not depend on the file system at all. -/
theorem C2_amended_stdin_only (env : Env) (args : Args) (f : String → Option String)
    (hm : check_dependencies env = [])
    (hv : args.version = false)
    (hdash : "-" ∈ args.file_paths) :
    (main env args).stdinReads = 1
      ∧ main { env with fs := f } args = main env args
      ∧ (env.clipboardError = none →
          (main env args).clip = pyStrip env.stdin ++ "\n") := by
  have hs1 := main_eq_stdin env args hm hv hdash
  have hs2 := main_eq_stdin { env with fs := f } args hm hv hdash
  rw [hs1, hs2]
  refine ⟨?_, rfl, ?_⟩
  · unfold mainStdin
    cases hr : (copy_file_contents_to_clipboard env env.clipboard [pyStrip env.stdin]
        args.header args.attachment none args.debug).ret with
    | none => simp [hr]
    | some s =>
      simp only [hr]
      split <;> rfl
  · intro hce
    have hcomb : (combineLoop args.header args.attachment args.debug none
        [pyStrip env.stdin] 0 "").1 = "" ++ pyStrip env.stdin ++ "\n" := by
      simp [combineLoop, formatItem, listTruthy]
    simp only [mainStdin, copy_ok env hce]
    rw [hcomb]
    simp [str_append_newline_isEmpty]

theorem C2_amended_stdin_only_witness :
    (main envW { argsNone with file_paths := ["-", "a.txt"] }).stdinReads = 1
      ∧ main { envW with fs := fun _ => none } { argsNone with file_paths := ["-", "a.txt"] }
          = main envW { argsNone with file_paths := ["-", "a.txt"] }
      ∧ (envW.clipboardError = none →
          (main envW { argsNone with file_paths := ["-", "a.txt"] }).clip
            = pyStrip envW.stdin ++ "\n") :=
  C2_amended_stdin_only envW { argsNone with file_paths := ["-", "a.txt"] }
    (fun _ => none) rfl rfl (by decide)

/-- C3 is false on the code: copying a single named text file prints the
batch line `All files copied to the clipboard successfully!`; the per-path
`<path> copied to the clipboard successfully!` line is never printed. -/
theorem C3_counterexample :
    (main envW { argsNone with file_paths := ["a.txt"] }).out
        = ["All files copied to the clipboard successfully!"]
      ∧ "a.txt copied to the clipboard successfully!"
          ∉ (main envW { argsNone with file_paths := ["a.txt"] }).out := by
  refine ⟨by decide, by decide⟩

/-- C3 (amended): after a successful clipboard copy of exactly one named
text file the program prints `All files copied to the clipboard
successfully!` — the same line as for a multi-file batch; no per-path
success line exists for named files. -/
theorem C3_amended_single_file_batch_line (env : Env) (args : Args) (p : String)
    (hm : check_dependencies env = [])
    (hv : args.version = false)
    (hp : args.file_paths = [p])
    (hdash : p ≠ "-")
    (himg : isImagePath p = false)
    (hread : (env.fs p).isSome = true)
    (hce : env.clipboardError = none) :
    "All files copied to the clipboard successfully!" ∈ (main env args).out := by
  obtain ⟨hcts, hvl, hcl, hab⟩ := processPaths_text_ok env args.debug [p] env.clipboard
    (by intro q hq; simp at hq; subst hq; exact himg)
    (by intro q hq; simp at hq; subst hq; exact hread)
  have hcombne := combineLoop_fst_ne_empty args.header args.attachment args.debug
    (some (processPaths env args.debug [p] env.clipboard).valids)
    [pyStrip ((env.fs p).getD "")] 0 "" (by simp)
  rw [main_eq_batch env args hm hv (by rw [hp]; simp)
    (by rw [hp]; simpa using (Ne.symm hdash))]
  simp only [mainBatch, hp, hcts, hab, Bool.false_eq_true, if_false,
    List.isEmpty_nil, copy_ok env hce, hcombne, List.map_cons, List.map_nil]
  simp [List.mem_append, hcombne]

theorem C3_amended_single_file_batch_line_witness :
    "All files copied to the clipboard successfully!"
      ∈ (main envW { argsNone with file_paths := ["a.txt"] }).out :=
  C3_amended_single_file_batch_line envW { argsNone with file_paths := ["a.txt"] } "a.txt"
    rfl rfl rfl (by decide) (by decide) (by decide) rfl

/-- C4: a nonexistent non-image path among the positional paths is reported
with `Error: File \x27<path>\x27 not found.` and skipped; provided the loop
reaches it, the collected contents, the valid paths and the final clipboard
text are exactly those of the same invocation without the bad path. -/
theorem C4_missing_file_skipped (env : Env) (args : Args)
    (l1 l2 : List String) (bad : String)
    (hm : check_dependencies env = [])
    (hv : args.version = false)
    (hp : args.file_paths = l1 ++ bad :: l2)
    (hdash : "-" ∉ l1 ++ bad :: l2)
    (hbi : isImagePath bad = false)
    (hbf : env.fs bad = none)
    (hab1 : (processPaths env args.debug l1 env.clipboard).aborted = false)
    (hne2 : l1 ++ l2 ≠ []) :
    ("Error: File \x27" ++ bad ++ "\x27 not found.") ∈ (main env args).out
      ∧ (main env args).clip = (main env { args with file_paths := l1 ++ l2 }).clip
      ∧ (processPaths env args.debug (l1 ++ bad :: l2) env.clipboard).contents
          = (processPaths env args.debug (l1 ++ l2) env.clipboard).contents := by
  obtain ⟨hmem, hcts, hvls, hclp, habs⟩ :=
    processPaths_skip env args.debug bad hbi hbf l1 l2 env.clipboard hab1
  have hne : args.file_paths ≠ [] := by rw [hp]; simp
  have hdash1 : "-" ∉ args.file_paths := by rw [hp]; exact hdash
  have hdash2 : "-" ∉ l1 ++ l2 := by
    intro hmm2
    rcases List.mem_append.mp hmm2 with h | h
    · exact hdash (List.mem_append.mpr (Or.inl h))
    · exact hdash (List.mem_append.mpr (Or.inr (List.mem_cons_of_mem bad h)))
  rw [main_eq_batch env args hm hv hne hdash1,
    main_eq_batch env { args with file_paths := l1 ++ l2 } hm hv hne2 hdash2]
  refine ⟨?_, ?_, hcts⟩
  · simp only [mainBatch, hp]
    repeat' split
    all_goals simp [hmem]
  · simp only [mainBatch, hp]
    rw [hcts, hvls, hclp, habs]
    cases habF : (processPaths env args.debug (l1 ++ l2) env.clipboard).aborted with
    | true => simp [habF]
    | false =>
      simp only [habF, Bool.false_eq_true, if_false]
      cases hbe : (processPaths env args.debug (l1 ++ l2) env.clipboard).contents.isEmpty with
      | true => simp [hbe]
      | false =>
        simp only [hbe, Bool.not_false, if_true]
        cases hr : (copy_file_contents_to_clipboard env
            (processPaths env args.debug (l1 ++ l2) env.clipboard).clip
            (processPaths env args.debug (l1 ++ l2) env.clipboard).contents
            args.header args.attachment
            (some (processPaths env args.debug (l1 ++ l2) env.clipboard).valids)
            args.debug).ret with
        | none => simp [hr]
        | some s =>
          simp only [hr]
          split <;> rfl

theorem C4_missing_file_skipped_witness :
    ("Error: File \x27missing.txt\x27 not found.")
        ∈ (main envW { argsNone with file_paths := ["a.txt", "missing.txt", "b.txt"] }).out
      ∧ (main envW { argsNone with file_paths := ["a.txt", "missing.txt", "b.txt"] }).clip
        = (main envW { argsNone with file_paths := ["a.txt", "b.txt"] }).clip
      ∧ (processPaths envW false (["a.txt"] ++ "missing.txt" :: ["b.txt"]) "old").contents
        = (processPaths envW false (["a.txt"] ++ ["b.txt"]) "old").contents :=
  C4_missing_file_skipped envW { argsNone with file_paths := ["a.txt", "missing.txt", "b.txt"] }
    ["a.txt"] ["b.txt"] "missing.txt" rfl rfl rfl (by decide) (by decide) (by decide)
    (by decide) (by decide)


theorem exists_rest0 (A : List String) : ∃ r, A = A ++ r := ⟨[], by simp⟩

theorem exists_rest1 (A X : List String) : ∃ r, A ++ X = A ++ r := ⟨X, rfl⟩

theorem exists_rest2 (A X Y : List String) : ∃ r, (A ++ X) ++ Y = A ++ r :=
  ⟨X ++ Y, by simp⟩

theorem exists_rest3 (A X Y Z : List String) : ∃ r, ((A ++ X) ++ Y) ++ Z = A ++ r :=
  ⟨X ++ (Y ++ Z), by simp⟩

theorem exists_cons1 (t : String) (X : List String) : ∃ r, [t] ++ X = t :: r := ⟨X, rfl⟩

theorem exists_cons2 (t : String) (X Y : List String) : ∃ r, ([t] ++ X) ++ Y = t :: r :=
  ⟨X ++ Y, by simp⟩

theorem exists_cons3 (t : String) (X Y Z : List String) :
    ∃ r, (([t] ++ X) ++ Y) ++ Z = t :: r :=
  ⟨X ++ (Y ++ Z), by simp⟩

/-- C7: with `-t` set, the token report comes right after the file loop and
before any output of the clipboard-copy step: in the batch branch the output
starts with the loop output followed by one line
`<path> contains <N> tokens.` per successfully read item, in order; in the
stdin branch it starts with `STDIN contains <N> tokens.`. -/
theorem C7_token_lines (env : Env) (args : Args)
    (hm : check_dependencies env = [])
    (hv : args.version = false)
    (ht : args.token = true) :
    ("-" ∉ args.file_paths → args.file_paths ≠ [] →
        (processPaths env args.debug args.file_paths env.clipboard).aborted = false →
        ∃ rest, (main env args).out
          = ((processPaths env args.debug args.file_paths env.clipboard).out
            ++ ((processPaths env args.debug args.file_paths env.clipboard).contents.zip
                  (processPaths env args.debug args.file_paths env.clipboard).valids).map
                (fun pc => pc.2 ++ " contains "
                  ++ toString (env.count_tokens pc.1 encodingName) ++ " tokens."))
            ++ rest)
      ∧ ("-" ∈ args.file_paths →
          ∃ rest, (main env args).out
            = ("STDIN contains "
                ++ toString (env.count_tokens (pyStrip env.stdin) encodingName) ++ " tokens.")
              :: rest) := by
  constructor
  · intro hdash hne hab
    rw [main_eq_batch env args hm hv hne hdash]
    simp only [mainBatch, hab, Bool.false_eq_true, if_false, ht, if_true]
    cases hce : env.clipboardError with
    | some msg =>
      simp only [copy_err env msg hce]
      repeat' split
      all_goals first
        | exact exists_rest1 _ _
        | exact exists_rest2 _ _ _
        | exact exists_rest3 _ _ _ _
        | exact exists_rest0 _
    | none =>
      simp only [copy_ok env hce]
      repeat' split
      all_goals first
        | exact exists_rest1 _ _
        | exact exists_rest2 _ _ _
        | exact exists_rest3 _ _ _ _
        | exact exists_rest0 _
  · intro hdash
    rw [main_eq_stdin env args hm hv hdash]
    simp only [mainStdin, ht, if_true]
    cases hce : env.clipboardError with
    | some msg =>
      simp only [copy_err env msg hce]
      repeat' split
      all_goals first
        | exact exists_cons1 _ _
        | exact exists_cons2 _ _ _
        | exact exists_cons3 _ _ _ _
    | none =>
      simp only [copy_ok env hce]
      repeat' split
      all_goals first
        | exact exists_cons1 _ _
        | exact exists_cons2 _ _ _
        | exact exists_cons3 _ _ _ _

theorem C7_token_lines_witness :
    (∃ rest, (main envW { argsNone with token := true, file_paths := ["a.txt"] }).out
      = ((processPaths envW false ["a.txt"] "old").out
          ++ (((processPaths envW false ["a.txt"] "old").contents.zip
                (processPaths envW false ["a.txt"] "old").valids).map
              (fun pc => pc.2 ++ " contains "
                ++ toString (envW.count_tokens pc.1 encodingName) ++ " tokens.")))
        ++ rest) :=
  (C7_token_lines envW { argsNone with token := true, file_paths := ["a.txt"] }
    rfl rfl rfl).1 (by decide) (by decide) (by decide)

/-- C8: if the clipboard write raises, the program prints
`Error: An unexpected error occurred. <msg>` as its final output line, the
combine-and-copy operation returns no payload (so no success line and no
`Exported contents:` output can follow), and the clipboard keeps the value
it had before the write. -/
theorem C8_clipboard_error (env : Env) (args : Args) (msg : String)
    (hm : check_dependencies env = [])
    (hv : args.version = false)
    (hce : env.clipboardError = some msg) :
    ("-" ∈ args.file_paths →
        (main env args).out.getLast? = some ("Error: An unexpected error occurred. " ++ msg)
          ∧ (main env args).clip = env.clipboard
          ∧ (copy_file_contents_to_clipboard env env.clipboard [pyStrip env.stdin]
              args.header args.attachment none args.debug).ret = none)
      ∧ ("-" ∉ args.file_paths → args.file_paths ≠ [] →
          (processPaths env args.debug args.file_paths env.clipboard).aborted = false →
          (processPaths env args.debug args.file_paths env.clipboard).contents ≠ [] →
          (main env args).out.getLast? = some ("Error: An unexpected error occurred. " ++ msg)
            ∧ (main env args).clip
              = (processPaths env args.debug args.file_paths env.clipboard).clip
            ∧ (copy_file_contents_to_clipboard env
                (processPaths env args.debug args.file_paths env.clipboard).clip
                (processPaths env args.debug args.file_paths env.clipboard).contents
                args.header args.attachment
                (some (processPaths env args.debug args.file_paths env.clipboard).valids)
                args.debug).ret = none) := by
  constructor
  · intro hdash
    rw [main_eq_stdin env args hm hv hdash]
    simp only [mainStdin, copy_err env msg hce]
    refine ⟨by simp, by trivial, by simp [copy_err env msg hce]⟩
  · intro hdash hne hab hcne
    have hbe : (processPaths env args.debug args.file_paths env.clipboard).contents.isEmpty
        = false := by simpa using hcne
    rw [main_eq_batch env args hm hv hne hdash]
    simp only [mainBatch, hab, Bool.false_eq_true, if_false, hbe, Bool.not_false, if_true,
      copy_err env msg hce]
    refine ⟨by simp, by trivial, by simp [copy_err env msg hce]⟩

theorem C8_clipboard_error_witness :
    (main envF { argsNone with file_paths := ["a.txt"] }).out.getLast?
        = some ("Error: An unexpected error occurred. boom")
      ∧ (main envF { argsNone with file_paths := ["a.txt"] }).clip
        = (processPaths envF false ["a.txt"] "old").clip
      ∧ (copy_file_contents_to_clipboard envF
          (processPaths envF false ["a.txt"] "old").clip
          (processPaths envF false ["a.txt"] "old").contents
          false false (some (processPaths envF false ["a.txt"] "old").valids)
          false).ret = none :=
  (C8_clipboard_error envF { argsNone with file_paths := ["a.txt"] } "boom" rfl rfl rfl).2
    (by decide) (by decide) (by decide) (by decide)

/-- C9: when every positional path is a non-image path that fails to open,
no clipboard write is attempted, nothing is pasted, the prior clipboard
content is untouched, and without `--debug` the output is exactly the
per-path error messages in command-line order (so no success line). -/
theorem C9_all_missing_no_write (env : Env) (args : Args)
    (hm : check_dependencies env = [])
    (hv : args.version = false)
    (hne : args.file_paths ≠ [])
    (hdash : "-" ∉ args.file_paths)
    (himg : ∀ p ∈ args.file_paths, isImagePath p = false)
    (hmiss : ∀ p ∈ args.file_paths, env.fs p = none) :
    (main env args).clip = env.clipboard
      ∧ (main env args).copies = 0
      ∧ (main env args).pastes = 0
      ∧ (args.debug = false → (main env args).out
          = args.file_paths.map (fun p => "Error: File \x27" ++ p ++ "\x27 not found.")) := by
  obtain ⟨hcts, hvls, hclp, habs, hout⟩ :=
    processPaths_missing env args.debug args.file_paths env.clipboard himg hmiss
  rw [main_eq_batch env args hm hv hne hdash]
  refine ⟨?_, ?_, ?_, ?_⟩
  · simp [mainBatch, habs, hcts, hclp]
  · simp [mainBatch, habs, hcts, hclp]
  · simp [mainBatch, habs, hcts, hclp]
  · intro hd
    simp only [mainBatch, habs, Bool.false_eq_true, if_false, hcts, List.isEmpty_nil,
      Bool.not_true, hclp, List.zip_nil_left, List.map_nil]
    rw [hout hd]
    simp

theorem C9_all_missing_no_write_witness :
    (main envW { argsNone with file_paths := ["x.txt", "y.txt"] }).clip = envW.clipboard
      ∧ (main envW { argsNone with file_paths := ["x.txt", "y.txt"] }).copies = 0
      ∧ (main envW { argsNone with file_paths := ["x.txt", "y.txt"] }).pastes = 0
      ∧ (false = false → (main envW { argsNone with file_paths := ["x.txt", "y.txt"] }).out
          = ["x.txt", "y.txt"].map (fun p => "Error: File \x27" ++ p ++ "\x27 not found.")) :=
  C9_all_missing_no_write envW { argsNone with file_paths := ["x.txt", "y.txt"] }
    rfl rfl (by decide) (by decide) (by decide) (by decide)

end CopyBuffer
